import Mathlib

/-!
Shallow embedding of the MSL option-translation and override-aggregation
layer of the spirv_cross wrapper (src/spirv_cross/src/msl.rs).

Native boundary calls (construct / configure / compile / free / query) are
modelled as explicit oracle parameters returning `Except ErrorCode _`,
mirroring the `check!` macro which early-returns the native error code.
Types declared in sibling modules of the repository that are not under
src/ (the `spirv` module, the crate-root `ErrorCode`, the raw bindings)
are modelled from the spec, each marked as such in its doc comment.
-/

namespace SpirvCrossMsl

/-- Modelled from the spec: the error taxonomy of the crate-root `ErrorCode`
type (not under src/). `msl.rs` names `ErrorCode::Unhandled` on the
text-decoding failure path; native failures carry a diagnostic code. -/
inductive ErrorCode where
  | Unhandled : ErrorCode
  | CompilationError : String → ErrorCode
deriving DecidableEq

/-- Modelled from the spec: the `spirv::ExecutionModel` enum (shader pipeline
stage, e.g. vertex, fragment) from the `spirv` module, which is not under
src/. Variants in declaration order, as derived `Ord` in Rust compares by
declaration order. -/
inductive ExecutionModel where
  | Vertex
  | TessellationControl
  | TessellationEvaluation
  | Geometry
  | Fragment
  | GlCompute
  | Kernel
deriving DecidableEq

/-- Modelled from the spec: the execution-stage translator of the `spirv`
module (not under src/): each stage maps to its flat integer encoding,
which follows declaration order. -/
def ExecutionModel.as_raw : ExecutionModel → Nat
  | .Vertex => 0
  | .TessellationControl => 1
  | .TessellationEvaluation => 2
  | .Geometry => 3
  | .Fragment => 4
  | .GlCompute => 5
  | .Kernel => 6

/-- Modelled from the spec: `spirv::VertexAttributeStep`, the step rate
(per-vertex | per-instance) of a vertex attribute (spirv module not
under src/). -/
inductive VertexAttributeStep where
  | Vertex
  | Instance
deriving DecidableEq

/-- Modelled from the spec: the optional built-in semantic tag
(`spirv::BuiltIn`, not under src/); only a few representative variants are
needed by this layer. -/
inductive BuiltIn where
  | Position
  | PointSize
  | ClipDistance
deriving DecidableEq

/-- Modelled from the spec: `spirv::built_in_as_raw` (not under src/), a
total injective encoding of the optional built-in tag into the native
integer encoding, with a fixed sentinel for absence. -/
def built_in_as_raw : Option BuiltIn → Nat
  | none => 4294967295
  | some .Position => 0
  | some .PointSize => 1
  | some .ClipDistance => 3

/-- Modelled from the spec: the raw `MSLVertexFormat` enum of the native
bindings (not under src/): three fixed sentinel values. -/
inductive MSLVertexFormat where
  | MSL_VERTEX_FORMAT_OTHER
  | MSL_VERTEX_FORMAT_UINT8
  | MSL_VERTEX_FORMAT_UINT16
deriving DecidableEq

/-- Format of the vertex attribute (src/spirv_cross/src/msl.rs, `Format`). -/
inductive Format where
  | Other
  | Uint8
  | Uint16
deriving DecidableEq

/-- `Format::as_raw` (msl.rs lines 33-43). -/
def Format.as_raw : Format → MSLVertexFormat
  | .Other => .MSL_VERTEX_FORMAT_OTHER
  | .Uint8 => .MSL_VERTEX_FORMAT_UINT8
  | .Uint16 => .MSL_VERTEX_FORMAT_UINT16

/-- Location of a vertex attribute to override (msl.rs line 23): a tuple
struct around a u32. -/
structure VertexAttributeLocation where
  val : Nat
deriving DecidableEq

/-- Vertex attribute description for overriding (msl.rs lines 47-54). -/
structure VertexAttribute where
  buffer_id : Nat
  offset : Nat
  stride : Nat
  step : VertexAttributeStep
  format : Format
  built_in : Option BuiltIn
deriving DecidableEq

/-- Location of a resource binding to override (msl.rs lines 58-62). -/
structure ResourceBindingLocation where
  stage : ExecutionModel
  desc_set : Nat
  binding : Nat
deriving DecidableEq

/-- Resource binding description for overriding (msl.rs lines 66-70). -/
structure ResourceBinding where
  buffer_id : Nat
  texture_id : Nat
  sampler_id : Nat
deriving DecidableEq

/-- The strict order of the derived `Ord` on `VertexAttributeLocation`:
the order of the wrapped integer. -/
def VertexAttributeLocation.lt (a b : VertexAttributeLocation) : Prop :=
  a.val < b.val

/-- The strict order of the derived `Ord` on `ResourceBindingLocation`:
lexicographic on (stage, desc_set, binding), stages compared in
declaration order. -/
def ResourceBindingLocation.lt (a b : ResourceBindingLocation) : Prop :=
  a.stage.as_raw < b.stage.as_raw ∨
    (a.stage.as_raw = b.stage.as_raw ∧
      (a.desc_set < b.desc_set ∨ (a.desc_set = b.desc_set ∧ a.binding < b.binding)))

instance (a b : VertexAttributeLocation) : Decidable (a.lt b) := by
  unfold VertexAttributeLocation.lt; infer_instance

instance (a b : ResourceBindingLocation) : Decidable (a.lt b) := by
  unfold ResourceBindingLocation.lt; infer_instance

/-- Model of Rust `std::collections::BTreeMap`: an association list whose
entries are strictly ascending in the key order (hence keys are unique),
which is exactly what `BTreeMap` iteration yields. -/
structure RustBTreeMap (K V : Type) (lt : K → K → Prop) where
  entries : List (K × V)
  sorted : entries.Pairwise (fun a b => lt a.1 b.1)

/-- The empty map, `Default::default()` for `BTreeMap`. -/
def RustBTreeMap.empty (K V : Type) (lt : K → K → Prop) : RustBTreeMap K V lt :=
  ⟨[], List.Pairwise.nil⟩

/-- A MSL shader platform (msl.rs lines 76-79), with `repr(u8)`
discriminants 0 and 1. -/
inductive Platform where
  | iOS
  | macOS
deriving DecidableEq

/-- The `platform as _` cast in `as_raw` (msl.rs line 166): the u8
discriminant. -/
def Platform.as_raw : Platform → Nat
  | .iOS => 0
  | .macOS => 1

/-- A MSL shader model version (msl.rs lines 83-89). -/
inductive Version where
  | V1_0
  | V1_1
  | V1_2
  | V2_0
  | V2_1
deriving DecidableEq

/-- `Version::as_raw` (msl.rs lines 91-102). -/
def Version.as_raw : Version → Nat
  | .V1_0 => 10000
  | .V1_1 => 10100
  | .V1_2 => 10200
  | .V2_0 => 20000
  | .V2_1 => 20100

/-- The major component named by each variant (spec-side view of the
version, for comparing against `as_raw`). -/
def Version.major : Version → Nat
  | .V1_0 => 1
  | .V1_1 => 1
  | .V1_2 => 1
  | .V2_0 => 2
  | .V2_1 => 2

/-- The minor component named by each variant (spec-side view). -/
def Version.minor : Version → Nat
  | .V1_0 => 0
  | .V1_1 => 1
  | .V1_2 => 2
  | .V2_0 => 0
  | .V2_1 => 1

/-- The patch component: every variant names a major.minor version, so the
patch level is 0 (spec-side view). -/
def Version.patch : Version → Nat
  | _ => 0

/-- MSL vertex compiler options (msl.rs lines 105-108). -/
structure CompilerVertexOptions where
  invert_y : Bool
  transform_clip_space : Bool
deriving DecidableEq

/-- `Default` for `CompilerVertexOptions` (msl.rs lines 110-117). -/
def CompilerVertexOptions.default : CompilerVertexOptions :=
  { invert_y := false, transform_clip_space := false }

/-- MSL compiler options (msl.rs lines 121-159). -/
structure CompilerOptions where
  platform : Platform
  version : Version
  vertex : CompilerVertexOptions
  swizzle_buffer_index : Nat
  indirect_params_buffer_index : Nat
  output_buffer_index : Nat
  patch_output_buffer_index : Nat
  tessellation_factor_buffer_index : Nat
  buffer_size_buffer_index : Nat
  enable_point_size_builtin : Bool
  enable_rasterization : Bool
  capture_output_to_buffer : Bool
  swizzle_texture_samples : Bool
  tessellation_domain_origin_lower_left : Bool
  enable_argument_buffers : Bool
  pad_fragment_output_components : Bool
  resource_binding_overrides :
    RustBTreeMap ResourceBindingLocation ResourceBinding ResourceBindingLocation.lt
  vertex_attribute_overrides :
    RustBTreeMap VertexAttributeLocation VertexAttribute VertexAttributeLocation.lt

/-- The flat options record `ScMslCompilerOptions` of the native bindings,
field-for-field as written in `CompilerOptions::as_raw` (msl.rs 162-182). -/
structure ScMslCompilerOptions where
  vertex_invert_y : Bool
  vertex_transform_clip_space : Bool
  platform : Nat
  version : Nat
  enable_point_size_builtin : Bool
  disable_rasterization : Bool
  swizzle_buffer_index : Nat
  indirect_params_buffer_index : Nat
  shader_output_buffer_index : Nat
  shader_patch_output_buffer_index : Nat
  shader_tess_factor_buffer_index : Nat
  buffer_size_buffer_index : Nat
  capture_output_to_buffer : Bool
  swizzle_texture_samples : Bool
  tess_domain_origin_lower_left : Bool
  argument_buffers : Bool
  pad_fragment_output_components : Bool
deriving DecidableEq

/-- `CompilerOptions::as_raw` (msl.rs lines 161-183). -/
def CompilerOptions.as_raw (o : CompilerOptions) : ScMslCompilerOptions :=
  { vertex_invert_y := o.vertex.invert_y
    vertex_transform_clip_space := o.vertex.transform_clip_space
    platform := o.platform.as_raw
    version := o.version.as_raw
    enable_point_size_builtin := o.enable_point_size_builtin
    disable_rasterization := !o.enable_rasterization
    swizzle_buffer_index := o.swizzle_buffer_index
    indirect_params_buffer_index := o.indirect_params_buffer_index
    shader_output_buffer_index := o.output_buffer_index
    shader_patch_output_buffer_index := o.patch_output_buffer_index
    shader_tess_factor_buffer_index := o.tessellation_factor_buffer_index
    buffer_size_buffer_index := o.buffer_size_buffer_index
    capture_output_to_buffer := o.capture_output_to_buffer
    swizzle_texture_samples := o.swizzle_texture_samples
    tess_domain_origin_lower_left := o.tessellation_domain_origin_lower_left
    argument_buffers := o.enable_argument_buffers
    pad_fragment_output_components := o.pad_fragment_output_components }

/-- `Default` for `CompilerOptions` (msl.rs lines 185-208). -/
def CompilerOptions.default : CompilerOptions :=
  { platform := Platform.macOS
    version := Version.V1_2
    vertex := CompilerVertexOptions.default
    swizzle_buffer_index := 30
    indirect_params_buffer_index := 29
    output_buffer_index := 28
    patch_output_buffer_index := 27
    tessellation_factor_buffer_index := 26
    buffer_size_buffer_index := 25
    enable_point_size_builtin := true
    enable_rasterization := true
    capture_output_to_buffer := false
    swizzle_texture_samples := false
    tessellation_domain_origin_lower_left := false
    enable_argument_buffers := false
    pad_fragment_output_components := false
    resource_binding_overrides :=
      RustBTreeMap.empty ResourceBindingLocation ResourceBinding ResourceBindingLocation.lt
    vertex_attribute_overrides :=
      RustBTreeMap.empty VertexAttributeLocation VertexAttribute VertexAttributeLocation.lt }

/-- The flat vertex-attribute override record `MSLVertexAttr` of the native
bindings, fields as initialized in `set_compiler_options` (msl.rs 265-276). -/
structure MSLVertexAttr where
  location : Nat
  msl_buffer : Nat
  msl_offset : Nat
  msl_stride : Nat
  per_instance : Bool
  format : MSLVertexFormat
  builtin : Nat
deriving DecidableEq

/-- The flat resource-binding override record `MSLResourceBinding` of the
native bindings, fields as initialized in `set_compiler_options`
(msl.rs 251-258). -/
structure MSLResourceBinding where
  stage : Nat
  desc_set : Nat
  binding : Nat
  msl_buffer : Nat
  msl_texture : Nat
  msl_sampler : Nat
deriving DecidableEq

/-- The per-entry translation closure for resource bindings inside
`set_compiler_options` (msl.rs lines 250-258). -/
def rawResourceBinding (loc : ResourceBindingLocation) (res : ResourceBinding) :
    MSLResourceBinding :=
  { stage := loc.stage.as_raw
    desc_set := loc.desc_set
    binding := loc.binding
    msl_buffer := res.buffer_id
    msl_texture := res.texture_id
    msl_sampler := res.sampler_id }

/-- The per-entry translation closure for vertex attributes inside
`set_compiler_options` (msl.rs lines 264-276). -/
def rawVertexAttr (loc : VertexAttributeLocation) (vat : VertexAttribute) :
    MSLVertexAttr :=
  { location := loc.val
    msl_buffer := vat.buffer_id
    msl_offset := vat.offset
    msl_stride := vat.stride
    per_instance :=
      match vat.step with
      | .Vertex => false
      | .Instance => true
    format := vat.format.as_raw
    builtin := built_in_as_raw vat.built_in }

/-- Translation of the resource-binding override table into the flat array:
the `clear`+`extend` over `BTreeMap::iter` in `set_compiler_options`
(msl.rs lines 248-260). -/
def translateResourceBindingOverrides
    (m : RustBTreeMap ResourceBindingLocation ResourceBinding ResourceBindingLocation.lt) :
    List MSLResourceBinding :=
  m.entries.map (fun e => rawResourceBinding e.1 e.2)

/-- Translation of the vertex-attribute override table into the flat array:
the `clear`+`extend` over `BTreeMap::iter` in `set_compiler_options`
(msl.rs lines 262-278). -/
def translateVertexAttributeOverrides
    (m : RustBTreeMap VertexAttributeLocation VertexAttribute VertexAttributeLocation.lt) :
    List MSLVertexAttr :=
  m.entries.map (fun e => rawVertexAttr e.1 e.2)

/-- `TargetData` (msl.rs lines 12-15): the session's cached, already
translated override arrays. -/
structure TargetData where
  vertex_attribute_overrides : List MSLVertexAttr
  resource_binding_overrides : List MSLResourceBinding
deriving DecidableEq

/-- The compiler session state as constructed in `Parse::parse`
(msl.rs lines 221-229): the opaque native handle (modelled as an
identifier), the cached override arrays, and the compiled flag. -/
structure Compiler where
  sc_compiler : Nat
  target_data : TargetData
  has_been_compiled : Bool
deriving DecidableEq

/-- The success path of `Parse::parse` (msl.rs lines 211-232): a fresh
session holds the native handle and two empty override caches. -/
def parse (handle : Nat) : Compiler :=
  { sc_compiler := handle
    target_data :=
      { vertex_attribute_overrides := []
        resource_binding_overrides := [] }
    has_been_compiled := false }

/-- `set_compiler_options` (msl.rs lines 239-281). The native
`sc_internal_compiler_msl_set_options` call is an oracle from the
submitted flat record to a result; `check!` early-returns its error, in
which case the session state is untouched. On success both cached arrays
are cleared and refilled from the freshly translated tables. -/
def set_compiler_options (c : Compiler) (options : CompilerOptions)
    (sc_internal_compiler_msl_set_options : ScMslCompilerOptions → Except ErrorCode Unit) :
    Except ErrorCode Unit × Compiler :=
  let raw_options := options.as_raw
  match sc_internal_compiler_msl_set_options raw_options with
  | .error e => (.error e, c)
  | .ok _ =>
    (.ok (),
      { c with
        target_data :=
          { resource_binding_overrides :=
              translateResourceBindingOverrides options.resource_binding_overrides
            vertex_attribute_overrides :=
              translateVertexAttributeOverrides options.vertex_attribute_overrides } })

/-- `compile_internal` (msl.rs lines 290-312). The native compile call is an
oracle from the two submitted override arrays to either an error code or
the allocated C string, the latter modelled by its decode outcome:
`some v` when `CStr::to_str` succeeds with `v`, `none` when the bytes are
not valid UTF-8. The second component of the result counts how many times
`sc_internal_free_pointer` is invoked on the native string; the free call
itself is an oracle (it goes through `check!`). Mirroring the source, the
decode-failure arm returns `Err(ErrorCode::Unhandled)` immediately, before
the free call is reached. -/
def compile_internal (c : Compiler)
    (sc_internal_compiler_msl_compile :
      List MSLVertexAttr → List MSLResourceBinding → Except ErrorCode (Option String))
    (sc_internal_free_pointer : Except ErrorCode Unit) :
    Except ErrorCode String × Nat :=
  let vat_overrides := c.target_data.vertex_attribute_overrides
  let res_overrides := c.target_data.resource_binding_overrides
  match sc_internal_compiler_msl_compile vat_overrides res_overrides with
  | .error e => (.error e, 0)
  | .ok none => (.error ErrorCode.Unhandled, 0)
  | .ok (some shader) =>
    match sc_internal_free_pointer with
    | .error e => (.error e, 1)
    | .ok _ => (.ok shader, 1)

/-- `compile` (msl.rs lines 284-287): delegates to `compile_internal`, which
takes the session by shared reference; the session state after the call is
returned explicitly and is the unchanged input state. -/
def compile (c : Compiler)
    (sc_internal_compiler_msl_compile :
      List MSLVertexAttr → List MSLResourceBinding → Except ErrorCode (Option String))
    (sc_internal_free_pointer : Except ErrorCode Unit) :
    (Except ErrorCode String × Nat) × Compiler :=
  (compile_internal c sc_internal_compiler_msl_compile sc_internal_free_pointer, c)

/-- `is_rasterization_enabled` (msl.rs lines 314-323): the native query is an
oracle for the currently effective rasterization-disabled flag; on success
the function returns its boolean negation, on failure `check!` propagates
the error code. -/
def is_rasterization_enabled (c : Compiler)
    (sc_internal_compiler_msl_get_is_rasterization_disabled : Except ErrorCode Bool) :
    Except ErrorCode Bool :=
  match sc_internal_compiler_msl_get_is_rasterization_disabled with
  | .error e => .error e
  | .ok is_disabled => .ok (!is_disabled)

/-- The lexicographic (stage, desc_set, binding) strict order on the flat
resource-binding records, matching the key order of the source table. -/
def MSLResourceBinding.keyLt (a b : MSLResourceBinding) : Prop :=
  a.stage < b.stage ∨
    (a.stage = b.stage ∧
      (a.desc_set < b.desc_set ∨ (a.desc_set = b.desc_set ∧ a.binding < b.binding)))

/-- C1: the claim says the native result string is released exactly once on
both the success path and the UTF-8 decode-failure path. The code disagrees
on the second path: evaluating `compile_internal` on a session where the
native compile succeeds but the output fails text decoding shows the error
`Unhandled` is returned with zero calls to `sc_internal_free_pointer`
(the `return Err` exits before the free is reached), while the success path
does free exactly once. -/
theorem compile_internal_decode_failure_skips_free :
    compile_internal (parse 0) (fun _ _ => .ok none) (.ok ())
      = (.error ErrorCode.Unhandled, 0) ∧
    compile_internal (parse 0) (fun _ _ => .ok (some "s")) (.ok ())
      = (.ok "s", 1) :=
  ⟨rfl, rfl⟩

/-- C2: the default-constructed `CompilerOptions` has exactly the documented
field values (platform macOS, version 1.2, the six buffer indices 30..25,
point-size builtin and rasterization enabled, all other booleans false,
both override tables empty), and translating the defaults yields
rasterization-disabled false, point-size-builtin true, and two empty
override arrays. -/
theorem compiler_options_default_spec :
    CompilerOptions.default.platform = Platform.macOS ∧
    CompilerOptions.default.version = Version.V1_2 ∧
    CompilerOptions.default.vertex.invert_y = false ∧
    CompilerOptions.default.vertex.transform_clip_space = false ∧
    CompilerOptions.default.swizzle_buffer_index = 30 ∧
    CompilerOptions.default.indirect_params_buffer_index = 29 ∧
    CompilerOptions.default.output_buffer_index = 28 ∧
    CompilerOptions.default.patch_output_buffer_index = 27 ∧
    CompilerOptions.default.tessellation_factor_buffer_index = 26 ∧
    CompilerOptions.default.buffer_size_buffer_index = 25 ∧
    CompilerOptions.default.enable_point_size_builtin = true ∧
    CompilerOptions.default.enable_rasterization = true ∧
    CompilerOptions.default.capture_output_to_buffer = false ∧
    CompilerOptions.default.swizzle_texture_samples = false ∧
    CompilerOptions.default.tessellation_domain_origin_lower_left = false ∧
    CompilerOptions.default.enable_argument_buffers = false ∧
    CompilerOptions.default.pad_fragment_output_components = false ∧
    CompilerOptions.default.resource_binding_overrides.entries = [] ∧
    CompilerOptions.default.vertex_attribute_overrides.entries = [] ∧
    CompilerOptions.default.as_raw.disable_rasterization = false ∧
    CompilerOptions.default.as_raw.enable_point_size_builtin = true ∧
    translateResourceBindingOverrides CompilerOptions.default.resource_binding_overrides = [] ∧
    translateVertexAttributeOverrides CompilerOptions.default.vertex_attribute_overrides = [] :=
  ⟨rfl, rfl, rfl, rfl, rfl, rfl, rfl, rfl, rfl, rfl, rfl, rfl, rfl, rfl, rfl, rfl,
    rfl, rfl, rfl, rfl, rfl, rfl, rfl⟩

/-- C3: every variant of the shading-language `Version` enum translates to
major*10000 + minor*100 + patch; in particular 1.2 gives 10200 and 2.1
gives 20100. -/
theorem version_as_raw_base100 :
    (∀ v : Version, v.as_raw = v.major * 10000 + v.minor * 100 + v.patch) ∧
    Version.as_raw Version.V1_2 = 10200 ∧
    Version.as_raw Version.V2_1 = 20100 :=
  ⟨fun v => by cases v <;> rfl, rfl, rfl⟩

/-- C4: for every `CompilerOptions` value, the flat record's
`disable_rasterization` field is the literal boolean negation of
`enable_rasterization` — it is a function of that flag alone. -/
theorem as_raw_disable_rasterization_is_negation (o : CompilerOptions) :
    o.as_raw.disable_rasterization = !o.enable_rasterization :=
  rfl

/-- C5: for both override tables, translation produces one flat record per
entry (equal lengths), the records appear in strictly ascending key order
(lexicographic on (stage, desc_set, binding) for resource bindings,
ascending location for vertex attributes), and each record's fields are the
1:1 projection of the entry's key and semantic fields, with the
`per_instance` boolean derived from the step enum, the stage encoded via
the execution-stage translator, the format via the format translator and
the built-in tag via the built-in translator. -/
theorem translate_overrides_spec
    (rm : RustBTreeMap ResourceBindingLocation ResourceBinding ResourceBindingLocation.lt)
    (vm : RustBTreeMap VertexAttributeLocation VertexAttribute VertexAttributeLocation.lt) :
    (translateResourceBindingOverrides rm).length = rm.entries.length ∧
    (translateVertexAttributeOverrides vm).length = vm.entries.length ∧
    (translateResourceBindingOverrides rm).Pairwise MSLResourceBinding.keyLt ∧
    (translateVertexAttributeOverrides vm).Pairwise (fun a b => a.location < b.location) ∧
    (∀ loc res, rawResourceBinding loc res =
      { stage := loc.stage.as_raw
        desc_set := loc.desc_set
        binding := loc.binding
        msl_buffer := res.buffer_id
        msl_texture := res.texture_id
        msl_sampler := res.sampler_id }) ∧
    (∀ loc vat,
      (rawVertexAttr loc vat).location = loc.val ∧
      (rawVertexAttr loc vat).msl_buffer = vat.buffer_id ∧
      (rawVertexAttr loc vat).msl_offset = vat.offset ∧
      (rawVertexAttr loc vat).msl_stride = vat.stride ∧
      ((rawVertexAttr loc vat).per_instance = true ↔ vat.step = VertexAttributeStep.Instance) ∧
      (rawVertexAttr loc vat).format = vat.format.as_raw ∧
      (rawVertexAttr loc vat).builtin = built_in_as_raw vat.built_in) := by
  refine ⟨List.length_map _ _, List.length_map _ _, ?_, ?_, fun loc res => rfl, ?_⟩
  · rw [translateResourceBindingOverrides, List.pairwise_map]
    exact rm.sorted.imp (fun h => h)
  · rw [translateVertexAttributeOverrides, List.pairwise_map]
    exact vm.sorted.imp (fun h => h)
  · intro loc vat
    refine ⟨rfl, rfl, rfl, rfl, ?_, rfl, rfl⟩
    cases h : vat.step <;> simp [rawVertexAttr, h]

/-- C6: when the native layer accepts the flat record, `set_compiler_options`
replaces both cached override arrays wholesale with the arrays freshly
translated from the given options — the resulting caches are a function of
the options alone, so no element of the previous caches survives, and
subsequent compiles read only the new caches. -/
theorem set_compiler_options_replaces_caches (c : Compiler) (options : CompilerOptions)
    (f : ScMslCompilerOptions → Except ErrorCode Unit)
    (h : f options.as_raw = .ok ()) :
    set_compiler_options c options f =
      (.ok (),
        { c with
          target_data :=
            { resource_binding_overrides :=
                translateResourceBindingOverrides options.resource_binding_overrides
              vertex_attribute_overrides :=
                translateVertexAttributeOverrides options.vertex_attribute_overrides } }) := by
  simp [set_compiler_options, h]

/-- C6 witness: a session whose caches are non-empty, configured with the
default options under a native layer that accepts the record, ends with
both caches replaced by the (empty) translations of the default tables. -/
theorem set_compiler_options_replaces_caches_witness :
    ((fun _ : ScMslCompilerOptions => (Except.ok () : Except ErrorCode Unit))
        CompilerOptions.default.as_raw = .ok ()) ∧
    set_compiler_options
        ⟨5, ⟨[⟨9, 8, 7, 6, true, .MSL_VERTEX_FORMAT_UINT8, 1⟩], [⟨0, 1, 2, 3, 4, 5⟩]⟩, false⟩
        CompilerOptions.default
        (fun _ => .ok ())
      = (.ok (), ⟨5, ⟨[], []⟩, false⟩) :=
  ⟨rfl,
    set_compiler_options_replaces_caches
      ⟨5, ⟨[⟨9, 8, 7, 6, true, .MSL_VERTEX_FORMAT_UINT8, 1⟩], [⟨0, 1, 2, 3, 4, 5⟩]⟩, false⟩
      CompilerOptions.default (fun _ => .ok ()) rfl⟩

/-- C7: when the native layer rejects the flat record with error `e`,
`set_compiler_options` returns exactly that error and the session state —
in particular both cached override arrays — is exactly the state before
the call. -/
theorem set_compiler_options_error_preserves_state (c : Compiler)
    (options : CompilerOptions)
    (f : ScMslCompilerOptions → Except ErrorCode Unit) (e : ErrorCode)
    (h : f options.as_raw = .error e) :
    set_compiler_options c options f = (.error e, c) := by
  simp [set_compiler_options, h]

/-- C7 witness: a rejecting native layer leaves a session with a non-empty
resource-binding cache untouched and surfaces the error. -/
theorem set_compiler_options_error_preserves_state_witness :
    ((fun _ : ScMslCompilerOptions => (Except.error ErrorCode.Unhandled : Except ErrorCode Unit))
        CompilerOptions.default.as_raw = .error ErrorCode.Unhandled) ∧
    set_compiler_options ⟨3, ⟨[], [⟨1, 2, 3, 4, 5, 6⟩]⟩, false⟩ CompilerOptions.default
        (fun _ => .error ErrorCode.Unhandled)
      = (.error ErrorCode.Unhandled, ⟨3, ⟨[], [⟨1, 2, 3, 4, 5, 6⟩]⟩, false⟩) :=
  ⟨rfl,
    set_compiler_options_error_preserves_state
      ⟨3, ⟨[], [⟨1, 2, 3, 4, 5, 6⟩]⟩, false⟩ CompilerOptions.default
      (fun _ => .error ErrorCode.Unhandled) ErrorCode.Unhandled rfl⟩

/-- C8: configuring is idempotent: the translation `as_raw` and the table
translations are pure functions of the options, so a second
`set_compiler_options` call with the same options (under the same native
behaviour) returns the same result and leaves the same session state as
the first, whether the native layer accepts or rejects. -/
theorem set_compiler_options_idempotent (c : Compiler) (options : CompilerOptions)
    (f : ScMslCompilerOptions → Except ErrorCode Unit) :
    set_compiler_options (set_compiler_options c options f).2 options f
      = set_compiler_options c options f := by
  cases h : f options.as_raw with
  | error e => simp [set_compiler_options, h]
  | ok u => cases u; simp [set_compiler_options, h]

/-- C9: `is_rasterization_enabled` returns the logical negation of the
rasterization-disabled flag reported by a successful native query and
propagates the error of a failing one; consequently, when the native layer
reports the `disable_rasterization` flag submitted by a successful
configure with options `o`, the result is exactly `o.enable_rasterization`
(false after configuring with rasterization disabled, true after the
default). -/
theorem is_rasterization_enabled_spec (c : Compiler) (e : ErrorCode) (b : Bool)
    (o : CompilerOptions) :
    is_rasterization_enabled c (.error e) = .error e ∧
    is_rasterization_enabled c (.ok b) = .ok (!b) ∧
    is_rasterization_enabled c (.ok o.as_raw.disable_rasterization)
      = .ok o.enable_rasterization := by
  refine ⟨rfl, rfl, ?_⟩
  simp [is_rasterization_enabled, CompilerOptions.as_raw]

/-- C10: `compile` never mutates the session: the state after the call is
the input state (cached override arrays and native handle included), the
result is computed by `compile_internal` from the cached arrays alone, and
an immediately repeated compile under the same native behaviour resubmits
the same cached arrays and returns the same result. -/
theorem compile_preserves_session_state (c : Compiler)
    (nc : List MSLVertexAttr → List MSLResourceBinding → Except ErrorCode (Option String))
    (nf : Except ErrorCode Unit) :
    (compile c nc nf).2 = c ∧
    (compile c nc nf).1 = compile_internal c nc nf ∧
    compile ((compile c nc nf).2) nc nf = compile c nc nf :=
  ⟨rfl, rfl, rfl⟩

end SpirvCrossMsl
